import Mathlib

/-!
# Verification of the data-capture-and-sync engine

A shallow embedding of the orchestration core of the repository:

* the file-eligibility selector `getAllFilesToSync`
  (src/services/datamanager/builtin/builtin.go, lines 628-660);
* the selective-sync gate `readyToSync` and its use in `uploadData`
  (same file, lines 98-117 and 590-606);
* the `Reconfigure` / `Sync` / `Close` lifecycle of the `builtIn` service
  (same file, lines 150-548), including collector reconciliation
  (`initializeOrUpdateCollector`, lines 253-338) and syncer lifecycle
  (`initSyncer` / `closeSyncer`, lines 340-375);
* the resilient gRPC connection handle `ReconfigurableClientConn`
  (src/unnamed/part_001).

Go maps are embedded as association lists with overwrite-on-insert
semantics; object identity (collectors, syncers) is embedded as a `Nat`
drawn from a fresh-identity counter threaded through the state, so that
"the same task as before" is expressible.  Durations are embedded in
whole milliseconds as `Int` (the source compares `time.Duration` values
that are exact multiples of a millisecond).  Float-typed configuration
fields (`CaptureFrequencyHz`, `SyncIntervalMins`) are embedded as `Int`:
the orchestration logic only compares them with zero and with previously
stored values.
-/

namespace Rdk

/-- Association-list lookup, standing in for a Go map read (`m[k]`). -/
def alookup {α β : Type} [DecidableEq α] : List (α × β) → α → Option β
  | [], _ => none
  | (k, v) :: rest, a => if a = k then some v else alookup rest a

/-- Association-list insert, standing in for a Go map write (`m[k] = v`):
the first binding of the key is overwritten, otherwise the binding is
appended. -/
def ainsert {α β : Type} [DecidableEq α] : List (α × β) → α → β → List (α × β)
  | [], a, b => [(a, b)]
  | (k, v) :: rest, a, b => if a = k then (a, b) :: rest else (k, v) :: ainsert rest a b

/-- Keys of an association list. -/
def akeys {α β : Type} : List (α × β) → List α := List.map Prod.fst

/-! ## File eligibility selector

Embedding of `getAllFilesToSync` (builtin.go lines 628-660).  A directory
tree is embedded inductively; each regular file carries the elapsed time
since its last modification as measured by the injected clock
(`clock.Since(info.ModTime())`), in milliseconds, which can be negative
when the injected clock and the filesystem clock diverge.  A selected
file is reported as its path: the list of node names from the walk root
down to the file, mirroring the `path` argument of the walk callback. -/

/-- A directory tree as seen by `filepath.Walk`. -/
inductive FsTree where
  | file (name : String) (timeSinceModMs : Int)
  | dir (name : String) (children : List FsTree)

/-- Modelled from the spec: value of the `datacapture.FileExt` constant
(defined outside src/) — the "extension marks a finalized capture
segment" marker of §4.3, named as in the spec's worked example. -/
def FileExt : String := ".completed"

/-- Modelled from the spec: value of the `datacapture.InProgressFileExt`
constant (defined outside src/) — the "extension marks an unfinished
capture segment" marker of §4.3. -/
def InProgressFileExt : String := ".inprogress"

/-- Modelled from the spec: value of the `datasync.FailedDir` constant
(defined outside src/) — the name of the reserved subdirectory holding
files that failed a previous sync attempt. -/
def FailedDir : String := "failed"

/-- Embedding of `defaultFileLastModifiedMillis` (builtin.go line 68). -/
def defaultFileLastModifiedMillis : Int := 10000

/-- Backward scan for the suffix starting at the last dot, the
accumulator holding the characters already passed, in order. -/
def extAux : List Char → List Char → Option (List Char)
  | [], _ => none
  | c :: rest, acc => if c = '.' then some (c :: acc) else extAux rest (c :: acc)

/-- Embedding of `filepath.Ext` restricted to base names (no path separator): the
suffix beginning at the final dot, or `""` when there is none. -/
def filepathExt (name : String) : String :=
  match extAux name.data.reverse [] with
  | none => ""
  | some l => String.mk l

/-- The per-file eligibility block of `getAllFilesToSync` (builtin.go
lines 641-656): clamp a negative elapsed time to zero, then select the
file if it is a completed capture file, a stuck in-progress capture
file, or a non-capture file that has not been written to for at least
`lastModifiedMillis`. -/
def fileEligible (lastModifiedMillis : Int) (ext : String) (timeSinceMod0 : Int) : Bool :=
  let timeSinceMod := if timeSinceMod0 < 0 then 0 else timeSinceMod0
  let isStuckInProgressCaptureFile :=
    ext == InProgressFileExt && decide (defaultFileLastModifiedMillis ≤ timeSinceMod)
  let isNonCaptureFileThatIsNotBeingWrittenTo :=
    ext != InProgressFileExt && decide (lastModifiedMillis ≤ timeSinceMod)
  let isCompletedCaptureFile := ext == FileExt
  isCompletedCaptureFile || isStuckInProgressCaptureFile || isNonCaptureFileThatIsNotBeingWrittenTo

mutual

/-- Embedding of `getAllFilesToSync` (builtin.go lines 628-660): walk the tree,
skipping any directory named `FailedDir` (`filepath.SkipDir`), and
collect the paths of the eligible regular files. -/
def getAllFilesToSync (lastModifiedMillis : Int) : FsTree → List (List String)
  | .file name timeSinceModMs =>
    if fileEligible lastModifiedMillis (filepathExt name) timeSinceModMs then [[name]] else []
  | .dir name children =>
    if name = FailedDir then []
    else (walkAll lastModifiedMillis children).map (fun p => name :: p)

/-- Walk over a list of sibling subtrees, in order. -/
def walkAll (lastModifiedMillis : Int) : List FsTree → List (List String)
  | [] => []
  | t :: ts => getAllFilesToSync lastModifiedMillis t ++ walkAll lastModifiedMillis ts

end

/-- Induction over the nested tree type, with the inductive hypothesis
available for every child of a directory. -/
def FsTree.inductionOn {motive : FsTree → Prop} (t : FsTree)
    (hfile : ∀ n e, motive (.file n e))
    (hdir : ∀ n cs, (∀ c ∈ cs, motive c) → motive (.dir n cs)) : motive t :=
  match t with
  | .file n e => hfile n e
  | .dir n cs => hdir n cs (fun c hc => FsTree.inductionOn c hfile hdir)
termination_by sizeOf t
decreasing_by
  have := List.sizeOf_lt_of_mem hc
  simp only [FsTree.dir.sizeOf_spec]
  omega

/-- The walk reaches a regular file named `fn` with elapsed-time `fe` at
path `p` (node names from the root down): the walk enters every
directory on the way except one named `FailedDir`, which
`getAllFilesToSync` skips wholesale. -/
inductive Reaches : FsTree → List String → String → Int → Prop where
  | file (name : String) (timeSinceModMs : Int) :
      Reaches (.file name timeSinceModMs) [name] name timeSinceModMs
  | dir (name : String) (children : List FsTree) (c : FsTree) (p : List String)
      (fn : String) (fe : Int) :
      name ≠ FailedDir → c ∈ children → Reaches c p fn fe →
      Reaches (.dir name children) (name :: p) fn fe

/-- The spec's clamping rule (§4.3): "negative elapsed time … is clamped
to zero". -/
def fileAge (timeSinceModMs : Int) : Int :=
  if timeSinceModMs < 0 then 0 else timeSinceModMs

/-- The three eligibility predicates, stated in the spec's words (§4.3):
completed-capture file (always eligible); stuck in-progress file (age at
least the fixed abandoned threshold of 10000 ms); non-capture file whose
age is at least the configured stale threshold. -/
def eligibleSpec (staleMillis : Int) (name : String) (timeSinceModMs : Int) : Prop :=
  filepathExt name = FileExt
  ∨ (filepathExt name = InProgressFileExt ∧ 10000 ≤ fileAge timeSinceModMs)
  ∨ (filepathExt name ≠ InProgressFileExt ∧ staleMillis ≤ fileAge timeSinceModMs)

instance (staleMillis : Int) (name : String) (e : Int) :
    Decidable (eligibleSpec staleMillis name e) := by
  unfold eligibleSpec; infer_instance

/-! ## Selective sync gate

Embedding of `readyToSync` (builtin.go lines 98-117) and the gate logic
of `uploadData` (lines 590-606).  A sensor is embedded by the outcome of
its `Readings` call: either an error or a finite map from keys to
reading values; `utils.AssertType[bool]` succeeds exactly on the `bool`
alternative. -/

/-- A value in a sensor's readings map: either an actual `bool`, or a
value of any other dynamic type (so `utils.AssertType[bool]` fails). -/
inductive RValue where
  | bool (b : Bool)
  | nonBool (tag : Nat)
deriving DecidableEq

/-- Modelled from the spec: value of the `datamanager.ShouldSyncKey`
constant (defined outside src/) — the "well-known key" of §4.4. -/
def ShouldSyncKey : String := "should_sync"

/-- Outcome of `selectiveSyncer.Readings`: a read error, or the readings
map. -/
abbrev ReadingsResult := Except Unit (List (String × RValue))

/-- Embedding of `readyToSync` (builtin.go lines 98-117): `false` on a read error, a
missing `ShouldSyncKey`, or a non-`bool` value; otherwise the `bool`
read from the map.  Its return type is `Bool`: no condition is
propagated as an error (failures are only logged in the source). -/
def readyToSync (res : ReadingsResult) : Bool :=
  match res with
  | .error _ => false
  | .ok readings =>
    match alookup readings ShouldSyncKey with
    | none => false
    | some (.bool b) => b
    | some (.nonBool _) => false

/-- The per-tick gate of `uploadData` (builtin.go lines 590-598):
`shouldSync := !selectiveSyncEnabled`, overridden by `readyToSync` when
a sensor is installed and selective sync is enabled.  The sensor handle
is a `Nat` identity; `readings` gives each sensor's current `Readings`
outcome. -/
def shouldSyncGate (selectiveSyncEnabled : Bool) (syncSensor : Option Nat)
    (readings : Nat → ReadingsResult) : Bool :=
  let shouldSync := !selectiveSyncEnabled
  match syncSensor with
  | some s => if selectiveSyncEnabled then readyToSync (readings s) else shouldSync
  | none => shouldSync

/-! ## Resilient connection handle

Embedding of `ReconfigurableClientConn` (src/unnamed/part_001).  The
handle's state is its current channel, or `none` when no channel is
installed.  The behavior of an installed channel is abstracted as a
function argument; delegation happens only by applying it. -/

/-- A channel's identity. -/
abbrev Channel := Nat

/-- Embedding of `ReconfigurableClientConn.Invoke`: snapshot the current channel;
with none installed return the "not connected" error, else delegate. -/
def ReconfigurableClientConn.Invoke (conn : Option Channel)
    (delegate : Channel → Except String Unit) : Except String Unit :=
  match conn with
  | none => .error "not connected"
  | some ch => delegate ch

/-- Embedding of `ReconfigurableClientConn.NewStream`: same shape, returning a stream
(abstracted as a `Nat`) on success. -/
def ReconfigurableClientConn.NewStream (conn : Option Channel)
    (delegate : Channel → Except String Nat) : Except String Nat :=
  match conn with
  | none => .error "not connected"
  | some ch => delegate ch

/-- Embedding of `ReconfigurableClientConn.ReplaceConn`: install a new channel
without closing the previous one. -/
def ReconfigurableClientConn.ReplaceConn (_conn : Option Channel)
    (newConn : Channel) : Option Channel :=
  some newConn

/-- Embedding of `ReconfigurableClientConn.Close`: remove the channel (if any) and
close it; with none installed return success.  The first component is
the handle's state after the call. -/
def ReconfigurableClientConn.Close (conn : Option Channel)
    (closeCh : Channel → Except String Unit) : Option Channel × Except String Unit :=
  match conn with
  | none => (none, .ok ())
  | some ch => (none, closeCh ch)

/-! ## Engine state and configuration

Embedding of the `builtIn` service state (builtin.go lines 120-145), the
service `Config` (lines 75-85), and the declaration type
`datamanager.DataCaptureConfig` (external to src/; its fields and its
deep-equality `Equals` are modelled from the spec's
SourceCaptureDeclaration, §3).  Running collectors, cloud connection
services, connections and sensors are identified by `Nat` handles; fresh
collector/syncer identities are drawn from a `nextFresh` counter in the
state, so that "the identical task as before" is expressible. -/

/-- A resource name: API identifier plus short name. -/
structure ResName where
  api : String
  shortName : String
deriving DecidableEq

/-- Modelled from the spec: `datamanager.DataCaptureConfig` (defined
outside src/), the per-source capture declaration of §3.  `resource` is
the resolved live-source handle (`none` when absent), `Equals` is
structural (deep) equality. -/
structure DataCaptureConfig where
  name : ResName
  method : String
  captureFrequencyHz : Int
  additionalParams : List (String × String)
  disabled : Bool
  tags : List String
  captureQueueSize : Nat
  captureBufferSize : Nat
  captureDirectory : String
  resource : Option Nat
deriving DecidableEq

/-- Embedding of `data.MethodMetadata`. -/
structure MethodMetadata where
  api : String
  methodName : String
deriving DecidableEq

/-- Embedding of `resourceMethodMetadata` (builtin.go lines 226-230).  The source
keys on `fmt.Sprintf("%v", AdditionalParams)`; the rendering is embedded
by the parameter list itself (a canonical form of that string). -/
structure ResourceMethodMetadata where
  resourceName : String
  methodParams : List (String × String)
  methodMetadata : MethodMetadata
deriving DecidableEq

/-- Embedding of `collectorAndConfig` (builtin.go lines 219-222): the running
collector's identity plus the declaration it was built from. -/
structure CollectorAndConfig where
  collector : Nat
  config : DataCaptureConfig
deriving DecidableEq

/-- A sync manager: the no-op manager substituted when not cloud
managed, or a real one with its own identity and the connection it was
built over. -/
inductive SyncMgr where
  | noop
  | real (sid : Nat) (connId : Nat)
deriving DecidableEq

/-- The service `Config` (builtin.go lines 75-85). -/
structure Config where
  captureDir : String
  additionalSyncPaths : List String
  syncIntervalMins : Int
  captureDisabled : Bool
  scheduledSyncDisabled : Bool
  tags : List String
  resourceConfigs : List DataCaptureConfig
  fileLastModifiedMillis : Int
  selectiveSyncerName : String
deriving DecidableEq

/-- The `builtIn` engine state (builtin.go lines 120-145).
`syncRoutineCancelSet` stands for `syncRoutineCancelFn != nil`,
`syncTickerSet` for `syncTicker != nil`.  `nextFresh` is the model's
fresh-identity supply (not a source field). -/
structure BuiltIn where
  captureDir : String
  captureDisabled : Bool
  collectors : List (ResourceMethodMetadata × CollectorAndConfig)
  fileLastModifiedMillis : Int
  additionalSyncPaths : List String
  tags : List String
  syncDisabled : Bool
  syncIntervalMins : Int
  syncRoutineCancelSet : Bool
  syncer : Option SyncMgr
  cloudConnSvc : Nat
  cloudConn : Option Nat
  syncTickerSet : Bool
  syncSensor : Option Nat
  selectiveSyncEnabled : Bool
  componentMethodFrequencyHz : List (ResourceMethodMetadata × Int)
  nextFresh : Nat
deriving DecidableEq

/-- The environment a `Reconfigure`/`Sync` call runs against: the
trusted-execution check, the dependency set, and the success/failure
behavior of the external collaborators. -/
structure Env where
  /-- Embedding of `utils.IsTrustedEnvironment(ctx)`. -/
  trusted : Bool
  /-- Embedding of `resource.FromDependencies[cloud.ConnectionService](deps, …)`:
  the resolved cloud connection service, or `none` on failure. -/
  depsCloud : Option Nat
  /-- Embedding of `deps.Lookup(resConf.Name)` in `updateDataCaptureConfigs`. -/
  lookupResource : ResName → Option Nat
  /-- Embedding of `sensor.FromDependencies(deps, name)`. -/
  lookupSensor : String → Option Nat
  /-- Success of `datacapture.BuildCaptureMetadata` for a declaration. -/
  buildMetadataOK : DataCaptureConfig → Bool
  /-- Success of the remaining collector construction steps
  (`data.CollectorLookup`, parameter conversion, `os.MkdirAll`, and the
  collector constructor itself). -/
  collectorCtorOK : ResourceMethodMetadata → DataCaptureConfig → Bool
  /-- Embedding of `cloudConnSvc.AcquireConnection`: the connection, or an error
  whose payload says whether it is `cloud.ErrNotCloudManaged`. -/
  acquireConn : Nat → Except Bool Nat
  /-- Success of `svc.syncerConstructor`. -/
  syncerCtorOK : Bool

/-- Embedding of `viamCaptureDotDir` (builtin.go line 147):
`filepath.Join(os.Getenv("HOME"), ".viam", "capture")`. -/
def viamCaptureDotDir : String := "/root/.viam/capture"

/-- Embedding of `generateMetadataKey` (builtin.go lines 680-682). -/
def generateMetadataKey (component method : String) : String :=
  component ++ "/" ++ method

/-- Embedding of `metadataToAdditionalParamFields` (builtin.go lines 246-249). -/
def metadataToAdditionalParamFields : List (String × String) :=
  [(generateMetadataKey "rdk:component:board" "Analogs", "reader_name"),
   (generateMetadataKey "rdk:component:board" "Gpios", "pin_name")]

/-- The additional-params check of `initializeOrUpdateCollector`
(builtin.go lines 300-308). -/
def additionalParamsOK (md : ResourceMethodMetadata) (config : DataCaptureConfig) : Bool :=
  match alookup metadataToAdditionalParamFields
      (generateMetadataKey md.methodMetadata.api md.methodMetadata.methodName) with
  | none => true
  | some key => (alookup config.additionalParams key).isSome

/-- The `resourceMethodMetadata` built for a declaration in the
`Reconfigure` loop (builtin.go lines 448-457). -/
def mdOf (resConf : DataCaptureConfig) : ResourceMethodMetadata :=
  { resourceName := resConf.name.shortName
    methodParams := resConf.additionalParams
    methodMetadata := { api := resConf.name.api, methodName := resConf.method } }

/-- Result of one `initializeOrUpdateCollector` call: the collector to
store (`none` on a logged construction error), the collectors closed on
the way, and the updated fresh-identity counter. -/
structure CollectorStep where
  result : Option CollectorAndConfig
  closed : List Nat
  nextFresh : Nat
deriving DecidableEq

/-- Embedding of `initializeOrUpdateCollector` (builtin.go lines 253-338): build the
capture metadata (failure aborts); if a collector is stored for `md`
with a deep-equal declaration keep it untouched; otherwise close the
stored one (if any) and construct a new collector, which can itself
fail after the old one was already closed. -/
def initializeOrUpdateCollector (env : Env)
    (collectors : List (ResourceMethodMetadata × CollectorAndConfig))
    (nextFresh : Nat) (md : ResourceMethodMetadata) (config : DataCaptureConfig) :
    CollectorStep :=
  if ¬ env.buildMetadataOK config then ⟨none, [], nextFresh⟩
  else
    let closed :=
      match alookup collectors md with
      | some stored => if stored.config = config then [] else [stored.collector]
      | none => []
    match alookup collectors md with
    | some stored =>
      if stored.config = config then ⟨some stored, [], nextFresh⟩
      else if additionalParamsOK md config && env.collectorCtorOK md config then
        ⟨some ⟨nextFresh, config⟩, closed, nextFresh + 1⟩
      else ⟨none, closed, nextFresh⟩
    | none =>
      if additionalParamsOK md config && env.collectorCtorOK md config then
        ⟨some ⟨nextFresh, config⟩, closed, nextFresh + 1⟩
      else ⟨none, closed, nextFresh⟩

/-- Embedding of `closeSyncer` (builtin.go lines 340-349): drop the syncer (closing
it) and close — but do not clear — the cloud connection.  Returns the
closed syncers. -/
def closeSyncer (st : BuiltIn) : BuiltIn × List SyncMgr :=
  match st.syncer with
  | some m => ({ st with syncer := none }, [m])
  | none => (st, [])

/-- Embedding of `initSyncer` (builtin.go lines 353-375): acquire a connection from
the cloud connection service; on `ErrNotCloudManaged` a no-op manager is
installed but the error is still returned; on success construct the
syncer and record the connection.  The `Bool` is success. -/
def initSyncer (env : Env) (st : BuiltIn) : BuiltIn × Bool :=
  match env.acquireConn st.cloudConnSvc with
  | .error notCloudManaged =>
    (if notCloudManaged then { st with syncer := some .noop } else st, false)
  | .ok conn =>
    if env.syncerCtorOK then
      ({ st with syncer := some (.real st.nextFresh conn), cloudConn := some conn,
                 nextFresh := st.nextFresh + 1 }, true)
    else (st, false)

/-- Embedding of `closeCollectors` (builtin.go lines 191-203). -/
def closeCollectors (st : BuiltIn) : BuiltIn × List Nat :=
  ({ st with collectors := [] }, st.collectors.map (fun kv => kv.2.collector))

/-- Embedding of `updateDataCaptureConfigs` (builtin.go lines 663-678): resolve each
declaration's resource and stamp the capture directory; a failed lookup
leaves the declaration untouched. -/
def updateDataCaptureConfigs (env : Env) (resourceConfigs : List DataCaptureConfig)
    (captureDir : String) : List DataCaptureConfig :=
  resourceConfigs.map fun resConf =>
    match env.lookupResource resConf.name with
    | none => resConf
    | some res => { resConf with resource := some res, captureDirectory := captureDir }

/-- Accumulator of the collector-reconciliation loop of `Reconfigure`
(builtin.go lines 439-486). -/
structure LoopState where
  newCollectors : List (ResourceMethodMetadata × CollectorAndConfig)
  freqMap : List (ResourceMethodMetadata × Int)
  closed : List Nat
  nextFresh : Nat
deriving DecidableEq

/-- One iteration of the `Reconfigure` collector loop (builtin.go lines
441-485): skip declarations with no resolved resource; record the
frequency; for enabled declarations with positive frequency, overwrite
the declaration's tags with the service-level tags and initialize or
update the collector, dropping it (logged) on a construction error. -/
def reconcileStep (env : Env)
    (oldCollectors : List (ResourceMethodMetadata × CollectorAndConfig))
    (svcTags : List String) (ls : LoopState) (resConf : DataCaptureConfig) :
    LoopState :=
  match resConf.resource with
  | none => ls
  | some _ =>
    let md := mdOf resConf
    let ls := { ls with freqMap := ainsert ls.freqMap md resConf.captureFrequencyHz }
    if resConf.disabled = false ∧ 0 < resConf.captureFrequencyHz then
      let resConf := { resConf with tags := svcTags }
      let step := initializeOrUpdateCollector env oldCollectors ls.nextFresh md resConf
      match step.result with
      | some cc =>
        { ls with newCollectors := ainsert ls.newCollectors md cc,
                  closed := ls.closed ++ step.closed, nextFresh := step.nextFresh }
      | none => { ls with closed := ls.closed ++ step.closed, nextFresh := step.nextFresh }
    else ls

/-- The errors `Reconfigure` can return. -/
inductive ReconfigureError where
  | missingCloudDep
  | captureDirDisabled
  | initSyncerFailed
deriving DecidableEq

/-- The outcome of a `Reconfigure` call: the state left behind, the
collector and syncer objects closed during the call, and the error, if
any. -/
structure ReconfigureOutcome where
  state : BuiltIn
  closedCollectors : List Nat
  closedSyncers : List SyncMgr
  err : Option ReconfigureError
deriving DecidableEq

/-- The capture/collector portion of `Reconfigure` (builtin.go lines
419-495, minus the trusted-environment check): resolve the capture
directory, close everything when capture is disabled, reconcile the
collectors against the declarations (with the resources re-resolved by
`updateDataCaptureConfigs`, which the source runs just before the
trusted-environment check), close the collectors that disappeared, and
record the additional sync paths.  The second component lists the
collectors closed. -/
def reconfigureCollectorPhase (env : Env) (conf : Config) (st : BuiltIn) :
    BuiltIn × List Nat :=
  let st := { st with captureDir := if conf.captureDir ≠ "" then conf.captureDir
                                    else viamCaptureDotDir }
  let st := { st with captureDisabled := conf.captureDisabled }
  let stClosed := if st.captureDisabled then closeCollectors st else (st, [])
  let st := stClosed.1
  let resourceConfigs := updateDataCaptureConfigs env conf.resourceConfigs conf.captureDir
  let ls0 : LoopState := ⟨[], st.componentMethodFrequencyHz, [], st.nextFresh⟩
  let ls := if st.captureDisabled then ls0
            else resourceConfigs.foldl (reconcileStep env st.collectors conf.tags) ls0
  let removed := (st.collectors.filter
    (fun kv => (alookup ls.newCollectors kv.1).isNone)).map (fun kv => kv.2.collector)
  ({ st with collectors := ls.newCollectors,
             componentMethodFrequencyHz := ls.freqMap,
             nextFresh := ls.nextFresh,
             additionalSyncPaths := conf.additionalSyncPaths },
   stClosed.2 ++ ls.closed ++ removed)

/-- The sync-scheduling tail of `Reconfigure` (builtin.go lines
497-547, from the `fileLastModifiedMillis` default onward), taking the
state after collector reconciliation.  `reinitSyncer` was computed at
the top of `Reconfigure`. -/
def reconfigureSyncPhase (env : Env) (reinitSyncer : Bool) (conf : Config)
    (st : BuiltIn) : BuiltIn × List SyncMgr × Option ReconfigureError :=
  let flm := if conf.fileLastModifiedMillis ≤ 0 then defaultFileLastModifiedMillis
             else conf.fileLastModifiedMillis
  let syncSensorPair : Bool × Option Nat :=
    if conf.selectiveSyncerName ≠ "" then
      (true, env.lookupSensor conf.selectiveSyncerName)
    else (false, none)
  let st := { st with selectiveSyncEnabled := syncSensorPair.1 }
  -- the source writes `svc.syncSensor` only when it differs (line 513);
  -- the resulting state is the same either way
  let st := { st with syncSensor := syncSensorPair.2 }
  if st.syncDisabled ≠ conf.scheduledSyncDisabled ∨ st.syncIntervalMins ≠ conf.syncIntervalMins
      ∨ st.tags ≠ conf.tags ∨ st.fileLastModifiedMillis ≠ flm then
    let st := { st with syncDisabled := conf.scheduledSyncDisabled,
                        syncIntervalMins := conf.syncIntervalMins,
                        tags := conf.tags,
                        fileLastModifiedMillis := flm }
    -- cancelSyncScheduler (builtin.go lines 559-565); the source fires
    -- and clears the cancel fn only when set — same resulting state
    let st := { st with syncRoutineCancelSet := false }
    if st.syncDisabled = false ∧ st.syncIntervalMins ≠ (0 : Int) then
      match st.syncer with
      | none =>
        let r := initSyncer env st
        if r.2 then
          -- SetArbitraryFileTags (syncer-internal, not a state field);
          -- startSyncScheduler + uploadData install the cancel fn and ticker
          ({ r.1 with syncRoutineCancelSet := true, syncTickerSet := true }, [], none)
        else (r.1, [], some .initSyncerFailed)
      | some _ =>
        if reinitSyncer then
          let c := closeSyncer st
          let r := initSyncer env c.1
          if r.2 then
            ({ r.1 with syncRoutineCancelSet := true, syncTickerSet := true }, c.2, none)
          else (r.1, c.2, some .initSyncerFailed)
        else ({ st with syncRoutineCancelSet := true, syncTickerSet := true }, [], none)
    else
      -- the source stops and clears the ticker only when set (lines
      -- 539-542) — same resulting state
      let st := { st with syncTickerSet := false }
      let c := closeSyncer st
      (c.1, c.2, none)
  else (st, [], none)

/-- Embedding of `Reconfigure` (builtin.go lines 399-548). -/
def Reconfigure (env : Env) (st0 : BuiltIn) (conf : Config) : ReconfigureOutcome :=
  match env.depsCloud with
  | none => ⟨st0, [], [], some .missingCloudDep⟩
  | some cloudConnSvc =>
    let reinitSyncer := cloudConnSvc ≠ st0.cloudConnSvc
    let st := { st0 with cloudConnSvc := cloudConnSvc }
    if env.trusted = false ∧ conf.captureDir ≠ "" ∧ conf.captureDir ≠ viamCaptureDotDir then
      ⟨st, [], [], some .captureDirDisabled⟩
    else
      let stc := reconfigureCollectorPhase env conf st
      let r := reconfigureSyncPhase env reinitSyncer conf stc.1
      ⟨r.1, stc.2, r.2.1, r.2.2⟩

/-- Embedding of `Sync` (builtin.go lines 383-396): lazily build the syncer when
absent; the sync pass itself (`svc.sync()`) flushes and uploads without
changing any state field.  The `Bool` is success. -/
def SyncCall (env : Env) (st : BuiltIn) : BuiltIn × Bool :=
  match st.syncer with
  | none => initSyncer env st
  | some _ => (st, true)

/-- Embedding of `Close` (builtin.go lines 178-189): close all collectors and the
syncer, and fire the scheduler's cancel function.  Returns the closed
collector identities and syncers. -/
def EngineClose (st : BuiltIn) : BuiltIn × List Nat × List SyncMgr :=
  let (st, closedColl) := closeCollectors st
  let (st, closedSync) := closeSyncer st
  (st, closedColl, closedSync)

/-! ## Shared concrete instances (for counterexamples and witnesses) -/

/-- A sample engine state: one running real syncer built over connection
`3`, cloud connection service identity `1`, scheduled sync on at a
1-minute interval, no collectors. -/
def sampleState : BuiltIn :=
  { captureDir := viamCaptureDotDir, captureDisabled := false, collectors := [],
    fileLastModifiedMillis := 10000, additionalSyncPaths := [], tags := [],
    syncDisabled := false, syncIntervalMins := 1, syncRoutineCancelSet := true,
    syncer := some (.real 7 3), cloudConnSvc := 1, cloudConn := some 3,
    syncTickerSet := true, syncSensor := none, selectiveSyncEnabled := false,
    componentMethodFrequencyHz := [], nextFresh := 8 }

/-- A sample environment: trusted, the dependency set resolves the cloud
connection service to identity `2` (different from `sampleState`'s `1`),
no resources or sensors resolve, and all constructors succeed. -/
def sampleEnv : Env :=
  { trusted := true, depsCloud := some 2, lookupResource := fun _ => none,
    lookupSensor := fun _ => none, buildMetadataOK := fun _ => true,
    collectorCtorOK := fun _ _ => true, acquireConn := fun _ => .ok 9,
    syncerCtorOK := true }

/-- A sample configuration whose sync settings match `sampleState`'s. -/
def sampleConf : Config :=
  { captureDir := "", additionalSyncPaths := [], syncIntervalMins := 1,
    captureDisabled := false, scheduledSyncDisabled := false, tags := [],
    resourceConfigs := [], fileLastModifiedMillis := 10000, selectiveSyncerName := "" }

/-- Concrete declaration used by the C3 witness. -/
def sampleDecl : DataCaptureConfig :=
  { name := { api := "rdk:component:sensor", shortName := "s1" }, method := "Readings",
    captureFrequencyHz := 1, additionalParams := [], disabled := false, tags := [],
    captureQueueSize := 0, captureBufferSize := 0, captureDirectory := "",
    resource := none }

/-- The C3 witness declaration after resource re-resolution. -/
def sampleDeclResolved : DataCaptureConfig := { sampleDecl with resource := some 5 }

/-- The collector stored for `sampleDecl`'s identity, built from the
resolved declaration. -/
def sampleStored : CollectorAndConfig :=
  { collector := 42, config := sampleDeclResolved }

/-- Engine state for the C3 witness: one running collector. -/
def sampleCollectorState : BuiltIn :=
  { sampleState with collectors := [(mdOf sampleDecl, sampleStored)] }

/-- Environment for the C3 witness: resolves the declared resource. -/
def sampleResEnv : Env :=
  { sampleEnv with lookupResource := fun n =>
      if n = sampleDecl.name then some 5 else none }

/-- Configuration for the C3 witness: the same single declaration. -/
def sampleDeclConf : Config := { sampleConf with resourceConfigs := [sampleDecl] }

theorem alookup_ainsert_self {α β : Type} [DecidableEq α]
    (l : List (α × β)) (a : α) (b : β) : alookup (ainsert l a b) a = some b := by
  induction l with
  | nil => simp [ainsert, alookup]
  | cons kv rest ih =>
    obtain ⟨k, v⟩ := kv
    by_cases h : a = k <;> simp [ainsert, alookup, h, ih]

theorem alookup_ainsert_ne {α β : Type} [DecidableEq α]
    (l : List (α × β)) (a a' : α) (b : β) (h : a' ≠ a) :
    alookup (ainsert l a b) a' = alookup l a' := by
  induction l with
  | nil => simp [ainsert, alookup, h]
  | cons kv rest ih =>
    obtain ⟨k, v⟩ := kv
    by_cases hk : a = k
    · subst hk
      simp [ainsert, alookup, h]
    · by_cases hk' : a' = k <;> simp [ainsert, alookup, hk, hk', ih]

theorem alookup_isSome_of_mem {α β : Type} [DecidableEq α]
    (l : List (α × β)) (kv : α × β) (h : kv ∈ l) : (alookup l kv.1).isSome := by
  induction l with
  | nil => cases h
  | cons hd rest ih =>
    obtain ⟨k, v⟩ := hd
    rcases List.mem_cons.1 h with h₁ | h₂
    · subst h₁; simp [alookup]
    · by_cases hk : kv.1 = k <;> simp [alookup, hk, ih h₂]

theorem fileEligible_iff (lastModifiedMillis : Int) (name : String) (e : Int) :
    fileEligible lastModifiedMillis (filepathExt name) e = true ↔
      eligibleSpec lastModifiedMillis name e := by
  simp only [fileEligible, eligibleSpec, fileAge, defaultFileLastModifiedMillis,
    Bool.or_eq_true, Bool.and_eq_true, beq_iff_eq, bne_iff_ne, decide_eq_true_eq]
  tauto

theorem mem_walkAll (lastModifiedMillis : Int) (ts : List FsTree) (p : List String) :
    p ∈ walkAll lastModifiedMillis ts ↔
      ∃ t ∈ ts, p ∈ getAllFilesToSync lastModifiedMillis t := by
  induction ts with
  | nil => simp [walkAll]
  | cons t ts ih => simp [walkAll, List.mem_append, ih]

/-- Characterization of the selector: a path is produced exactly when it
reaches a regular file (outside the reserved failed directory) that the
spec's three predicates make eligible. -/
theorem mem_getAllFilesToSync_iff (lastModifiedMillis : Int) (t : FsTree) :
    ∀ p : List String,
      p ∈ getAllFilesToSync lastModifiedMillis t ↔
        ∃ n e, Reaches t p n e ∧ eligibleSpec lastModifiedMillis n e := by
  induction t using FsTree.inductionOn with
  | hfile n e =>
    intro p
    constructor
    · intro hp
      simp only [getAllFilesToSync] at hp
      split at hp
      · next hel =>
        simp only [List.mem_singleton] at hp
        exact ⟨n, e, hp ▸ Reaches.file n e, (fileEligible_iff _ _ _).1 hel⟩
      · cases hp
    · rintro ⟨n', e', hr, hel⟩
      cases hr
      simp only [getAllFilesToSync, (fileEligible_iff _ _ _).2 hel, if_true,
        List.mem_singleton]
  | hdir n cs ih =>
    intro p
    by_cases hn : n = FailedDir
    · subst hn
      simp only [getAllFilesToSync, eq_self_iff_true, if_true, List.not_mem_nil, false_iff]
      rintro ⟨n', e', hr, -⟩
      cases hr with
      | dir _ _ _ _ _ _ hne _ _ => exact hne rfl
    · simp only [getAllFilesToSync, if_neg hn, List.mem_map]
      constructor
      · rintro ⟨q, hq, rfl⟩
        obtain ⟨c, hc, hqc⟩ := (mem_walkAll _ _ _).1 hq
        obtain ⟨n', e', hr, hel⟩ := (ih c hc q).1 hqc
        exact ⟨n', e', Reaches.dir n cs c q n' e' hn hc hr, hel⟩
      · rintro ⟨n', e', hr, hel⟩
        cases hr with
        | dir _ _ c q _ _ _ hc hrc =>
          exact ⟨q, (mem_walkAll _ _ _).2 ⟨c, hc, (ih c hc q).2 ⟨n', e', hrc, hel⟩⟩, rfl⟩

theorem reaches_failedDir_not_mem_dropLast {t : FsTree} {p : List String}
    {n : String} {e : Int} (hr : Reaches t p n e) : FailedDir ∉ p.dropLast := by
  induction hr with
  | file => simp
  | dir name children c q fn fe hne hc hrc ih =>
    have hq : ∃ a l, q = a :: l := by cases hrc <;> exact ⟨_, _, rfl⟩
    obtain ⟨a, l, rfl⟩ := hq
    intro hmem
    rw [List.dropLast_cons₂] at hmem
    rcases List.mem_cons.1 hmem with h | h
    · exact hne h.symm
    · exact ih h

/-! ## Helper lemmas about the model -/

theorem alookup_eq_some_mem {α β : Type} [DecidableEq α] {l : List (α × β)} {a : α} {b : β}
    (h : alookup l a = some b) : (a, b) ∈ l := by
  induction l with
  | nil => cases h
  | cons kv rest ih =>
    obtain ⟨k, v⟩ := kv
    by_cases hk : a = k
    · subst hk
      simp only [alookup, if_true, eq_self_iff_true, Option.some.injEq] at h
      subst h
      exact List.mem_cons_self _ _
    · simp only [alookup, if_neg hk] at h
      exact List.mem_cons_of_mem _ (ih h)

theorem initSyncer_collectors (env : Env) (st : BuiltIn) :
    (initSyncer env st).1.collectors = st.collectors := by
  unfold initSyncer
  split
  · split <;> simp
  · split <;> simp

theorem initSyncer_flm (env : Env) (st : BuiltIn) :
    (initSyncer env st).1.fileLastModifiedMillis = st.fileLastModifiedMillis := by
  unfold initSyncer
  split
  · split <;> simp
  · split <;> simp

theorem closeSyncer_collectors (st : BuiltIn) :
    (closeSyncer st).1.collectors = st.collectors := by
  unfold closeSyncer
  split <;> simp

theorem closeSyncer_flm (st : BuiltIn) :
    (closeSyncer st).1.fileLastModifiedMillis = st.fileLastModifiedMillis := by
  unfold closeSyncer
  split <;> simp

theorem reconfigureSyncPhase_collectors (env : Env) (reinit : Bool) (conf : Config)
    (st : BuiltIn) :
    (reconfigureSyncPhase env reinit conf st).1.collectors = st.collectors := by
  unfold reconfigureSyncPhase
  rcases hsy : st.syncer with _ | m <;>
    simp only [hsy] <;> split_ifs <;>
      simp [initSyncer_collectors, closeSyncer_collectors]

theorem reconfigureCollectorPhase_syncState (env : Env) (conf : Config) (st : BuiltIn) :
    (reconfigureCollectorPhase env conf st).1.syncDisabled = st.syncDisabled
    ∧ (reconfigureCollectorPhase env conf st).1.syncIntervalMins = st.syncIntervalMins
    ∧ (reconfigureCollectorPhase env conf st).1.tags = st.tags
    ∧ (reconfigureCollectorPhase env conf st).1.fileLastModifiedMillis = st.fileLastModifiedMillis
    ∧ (reconfigureCollectorPhase env conf st).1.syncer = st.syncer
    ∧ (reconfigureCollectorPhase env conf st).1.syncSensor = st.syncSensor
    ∧ (reconfigureCollectorPhase env conf st).1.syncRoutineCancelSet = st.syncRoutineCancelSet
    ∧ (reconfigureCollectorPhase env conf st).1.syncTickerSet = st.syncTickerSet
    ∧ (reconfigureCollectorPhase env conf st).1.cloudConnSvc = st.cloudConnSvc := by
  by_cases h1 : conf.captureDisabled = true <;>
    by_cases h2 : conf.captureDir = "" <;>
      simp [reconfigureCollectorPhase, closeCollectors, h1, h2]

theorem reconfigureSyncPhase_flm (env : Env) (reinit : Bool) (conf : Config) (st : BuiltIn)
    (h : (reconfigureSyncPhase env reinit conf st).2.2 = none) :
    (reconfigureSyncPhase env reinit conf st).1.fileLastModifiedMillis =
      if conf.fileLastModifiedMillis ≤ 0 then defaultFileLastModifiedMillis
      else conf.fileLastModifiedMillis := by
  unfold reconfigureSyncPhase at h ⊢
  rcases hsy : st.syncer with _ | m <;>
    simp only [hsy] at h ⊢ <;> split_ifs at h ⊢ <;>
      simp_all [initSyncer_flm, closeSyncer_flm]

/-! ## Claim theorems -/

/-- C2: for every directory tree and stale threshold, a regular file
is selected as sync-eligible iff its extension marks a completed capture
segment, or it marks an in-progress segment and the file's age is at
least the fixed abandoned threshold of 10000 ms, or it does not mark an
in-progress segment and the age is at least the configured stale
threshold (age = elapsed time clamped at zero; a file the walk reaches,
per `Reaches`); and on the spec's worked example with staleMillis =
10000, exactly `{a.completed, b.inprogress}` are selected. -/
theorem c2_sync_eligibility :
    (∀ (staleMillis : Int) (t : FsTree) (p : List String),
      p ∈ getAllFilesToSync staleMillis t ↔
        ∃ n e, Reaches t p n e ∧ eligibleSpec staleMillis n e)
    ∧ getAllFilesToSync 10000 (.dir "data"
        [.file "a.completed" 0, .file "b.inprogress" 20000, .file "c.plain" 500])
      = [["data", "a.completed"], ["data", "b.inprogress"]] :=
  ⟨fun staleMillis t p => mem_getAllFilesToSync_iff staleMillis t p, by decide⟩

/-- C7: the scan never descends into the reserved failed-sync
directory: no selected path lies under a directory named `FailedDir`
(every component of a selected path except the final file name differs
from `FailedDir`). -/
theorem c7_never_descends_into_failed_dir (staleMillis : Int) (t : FsTree)
    (p : List String) (hp : p ∈ getAllFilesToSync staleMillis t) :
    FailedDir ∉ p.dropLast := by
  obtain ⟨n, e, hr, -⟩ := (mem_getAllFilesToSync_iff staleMillis t p).1 hp
  exact reaches_failedDir_not_mem_dropLast hr

/-- Witness for C7 at a concrete tree containing a failed-sync
subdirectory. -/
theorem c7_never_descends_into_failed_dir_witness :
    ["data", "a.completed"] ∈ getAllFilesToSync 10000 (.dir "data"
      [.dir "failed" [.file "x.completed" 0], .file "a.completed" 0])
    ∧ FailedDir ∉ (["data", "a.completed"] : List String).dropLast :=
  ⟨by decide, c7_never_descends_into_failed_dir 10000 (.dir "data"
      [.dir "failed" [.file "x.completed" 0], .file "a.completed" 0])
      ["data", "a.completed"] (by decide)⟩

/-- C9: a file with negative elapsed time is treated exactly as one
with zero elapsed time, and (for a positive configured stale threshold,
which `Reconfigure` guarantees) such a file is eligible only via the
completed-capture predicate. -/
theorem c9_negative_elapsed_time_clamped (staleMillis : Int) (ext : String) (e : Int)
    (hpos : 0 < staleMillis) (hneg : e < 0) :
    fileEligible staleMillis ext e = fileEligible staleMillis ext 0
    ∧ (fileEligible staleMillis ext e = true ↔ ext = FileExt) := by
  constructor
  · simp [fileEligible, hneg]
  · simp [fileEligible, hneg, defaultFileLastModifiedMillis, hpos.not_le]

/-- Witness for C9 at a concrete input. -/
theorem c9_negative_elapsed_time_clamped_witness :
    (0 : Int) < 10000 ∧ (-5 : Int) < 0
    ∧ (fileEligible 10000 ".completed" (-5) = fileEligible 10000 ".completed" 0
       ∧ (fileEligible 10000 ".completed" (-5) = true ↔ ".completed" = FileExt)) :=
  ⟨by decide, by decide,
    c9_negative_elapsed_time_clamped 10000 ".completed" (-5) (by decide) (by decide)⟩

/-- C4: the should-sync gate is `true` whenever selective sync is
not configured; with a configured source, a read error, a missing
`ShouldSyncKey`, or a non-boolean value each make it `false`.  None of
these conditions can be propagated as a hard error: `readyToSync` and
`shouldSyncGate` return a plain `Bool` (the source only logs). -/
theorem c4_gate_fail_closed :
    (∀ (sensor : Option Nat) (readings : Nat → ReadingsResult),
      shouldSyncGate false sensor readings = true)
    ∧ (∀ (s : Nat) (readings : Nat → ReadingsResult),
        readings s = .error () → shouldSyncGate true (some s) readings = false)
    ∧ (∀ (s : Nat) (readings : Nat → ReadingsResult) (rs : List (String × RValue)),
        readings s = .ok rs → alookup rs ShouldSyncKey = none →
        shouldSyncGate true (some s) readings = false)
    ∧ (∀ (s : Nat) (readings : Nat → ReadingsResult) (rs : List (String × RValue)) (k : Nat),
        readings s = .ok rs → alookup rs ShouldSyncKey = some (.nonBool k) →
        shouldSyncGate true (some s) readings = false) := by
  refine ⟨fun sensor readings => by cases sensor <;> simp [shouldSyncGate],
    fun s readings h => by simp [shouldSyncGate, readyToSync, h],
    fun s readings rs h hk => ?_, fun s readings rs k h hk => ?_⟩ <;>
      simp [shouldSyncGate, readyToSync, h, hk]

/-- Witness for C4 at concrete sensors and readings. -/
theorem c4_gate_fail_closed_witness :
    shouldSyncGate false (some 0) (fun _ => .ok []) = true
    ∧ shouldSyncGate true (some 0) (fun _ => .error ()) = false
    ∧ shouldSyncGate true (some 0) (fun _ => .ok [("battery", .bool true)]) = false
    ∧ shouldSyncGate true (some 0) (fun _ => .ok [(ShouldSyncKey, .nonBool 4)]) = false :=
  ⟨c4_gate_fail_closed.1 (some 0) _,
   c4_gate_fail_closed.2.1 0 _ rfl,
   c4_gate_fail_closed.2.2.1 0 _ [("battery", .bool true)] rfl (by decide),
   c4_gate_fail_closed.2.2.2 0 _ [(ShouldSyncKey, .nonBool 4)] 4 rfl (by decide)⟩

/-- C8: with no channel installed — never installed, or removed by
`Close` — `Invoke` and `NewStream` return the "not connected" error.
The result is the same for every delegate function, so no delegation to
a channel occurs; the functions are total, so no blocking or panic is
possible. -/
theorem c8_not_connected :
    (∀ delegate, ReconfigurableClientConn.Invoke none delegate = .error "not connected")
    ∧ (∀ delegate, ReconfigurableClientConn.NewStream none delegate = .error "not connected")
    ∧ (∀ (conn : Option Channel) (closeCh : Channel → Except String Unit)
        (delegate : Channel → Except String Unit),
        ReconfigurableClientConn.Invoke
          (ReconfigurableClientConn.Close conn closeCh).1 delegate = .error "not connected")
    ∧ (∀ (conn : Option Channel) (closeCh : Channel → Except String Unit)
        (delegate : Channel → Except String Nat),
        ReconfigurableClientConn.NewStream
          (ReconfigurableClientConn.Close conn closeCh).1 delegate = .error "not connected") := by
  refine ⟨fun _ => rfl, fun _ => rfl, ?_, ?_⟩ <;>
    (intro conn closeCh delegate; cases conn <;> rfl)

/-- C1 counterexample: with an untrusted environment and a
non-default capture directory, `Reconfigure` does fail with the
configuration error — but it has already overwritten the
cloud-connection dependency field (`svc.cloudConnSvc`, builtin.go line
417) before the capture-directory check (line 421), so the failed call
does not leave all engine state intact. -/
theorem c1_counterexample :
    (Reconfigure { sampleEnv with trusted := false } sampleState
        { sampleConf with captureDir := "/data/elsewhere" }).err = some .captureDirDisabled
    ∧ (Reconfigure { sampleEnv with trusted := false } sampleState
        { sampleConf with captureDir := "/data/elsewhere" }).state.cloudConnSvc
      ≠ sampleState.cloudConnSvc := by
  refine ⟨by decide, by decide⟩

/-- C1 amended: under the same hypotheses, `Reconfigure` fails with
the configuration error, no collector is closed (or created) and no
syncer is torn down, and every engine-state field is left intact
*except* `cloudConnSvc`, which has already been overwritten with the
newly resolved dependency. -/
theorem c1_amended (env : Env) (st0 : BuiltIn) (conf : Config) (c : Nat)
    (hc : env.depsCloud = some c) (ht : env.trusted = false)
    (h1 : conf.captureDir ≠ "") (h2 : conf.captureDir ≠ viamCaptureDotDir) :
    Reconfigure env st0 conf =
      ⟨{ st0 with cloudConnSvc := c }, [], [], some .captureDirDisabled⟩ := by
  simp only [Reconfigure, hc]
  rw [if_pos ⟨ht, h1, h2⟩]

/-- Witness for the amended C1 at concrete inputs. -/
theorem c1_amended_witness :
    Reconfigure { sampleEnv with trusted := false } sampleState
        { sampleConf with captureDir := "/data/elsewhere" } =
      ⟨{ sampleState with cloudConnSvc := 2 }, [], [], some .captureDirDisabled⟩ :=
  c1_amended { sampleEnv with trusted := false } sampleState
    { sampleConf with captureDir := "/data/elsewhere" } 2 rfl rfl (by decide) (by decide)

/-- C10: a successful `Reconfigure` whose configuration carries a
stale threshold `≤ 0` leaves the effective threshold at the default of
10000 ms (builtin.go lines 497-500; the field either gets the default
inside the settings-changed branch, or it was already equal to it). -/
theorem c10_nonpositive_stale_threshold_defaults (env : Env) (st0 : BuiltIn) (conf : Config)
    (hflm : conf.fileLastModifiedMillis ≤ 0)
    (hok : (Reconfigure env st0 conf).err = none) :
    (Reconfigure env st0 conf).state.fileLastModifiedMillis = defaultFileLastModifiedMillis := by
  rcases hdc : env.depsCloud with _ | c
  · simp [Reconfigure, hdc] at hok
  · by_cases h : env.trusted = false ∧ conf.captureDir ≠ "" ∧ conf.captureDir ≠ viamCaptureDotDir
    · simp [Reconfigure, hdc, h] at hok
    · unfold Reconfigure at hok ⊢
      simp only [hdc] at hok ⊢
      rw [if_neg h] at hok ⊢
      exact (reconfigureSyncPhase_flm env _ conf _ hok).trans (if_pos hflm)

/-- Witness for C10 at concrete inputs (prior threshold 5000 ms, new
configuration asks for −3 ms). -/
theorem c10_nonpositive_stale_threshold_defaults_witness :
    ({ sampleConf with fileLastModifiedMillis := -3 } : Config).fileLastModifiedMillis ≤ 0
    ∧ (Reconfigure sampleEnv { sampleState with fileLastModifiedMillis := 5000 }
        { sampleConf with fileLastModifiedMillis := -3 }).err = none
    ∧ (Reconfigure sampleEnv { sampleState with fileLastModifiedMillis := 5000 }
        { sampleConf with fileLastModifiedMillis := -3 }).state.fileLastModifiedMillis
      = defaultFileLastModifiedMillis :=
  ⟨by decide, by decide,
    c10_nonpositive_stale_threshold_defaults sampleEnv
      { sampleState with fileLastModifiedMillis := 5000 }
      { sampleConf with fileLastModifiedMillis := -3 } (by decide) (by decide)⟩

/-- Behavior of `reconfigureSyncPhase` when none of the four sync settings changed:
only the selective-sync fields are recomputed; nothing is closed and no
error is possible. -/
theorem reconfigureSyncPhase_unchanged (env : Env) (reinit : Bool) (conf : Config)
    (st : BuiltIn)
    (hsd : st.syncDisabled = conf.scheduledSyncDisabled)
    (hsi : st.syncIntervalMins = conf.syncIntervalMins)
    (htags : st.tags = conf.tags)
    (hflm : st.fileLastModifiedMillis =
      if conf.fileLastModifiedMillis ≤ 0 then defaultFileLastModifiedMillis
      else conf.fileLastModifiedMillis) :
    reconfigureSyncPhase env reinit conf st =
      ({ st with
          selectiveSyncEnabled := if conf.selectiveSyncerName ≠ "" then true else false,
          syncSensor := if conf.selectiveSyncerName ≠ "" then
            env.lookupSensor conf.selectiveSyncerName else none }, [], none) := by
  simp only [reconfigureSyncPhase]
  split_ifs with h1 h2 h2 <;> simp_all

/-- C5 counterexample: when the declared selective-sync source fails
to re-resolve, `Reconfigure` does succeed, but it does *not* disable
selective sync: `selectiveSyncEnabled` remains `true` with no sensor
installed — and in that state the gate is `false` on every tick (nothing
syncs at all), the opposite of what disabled selective sync (gate
`true`) would do. -/
theorem c5_counterexample :
    sampleEnv.lookupSensor "sel" = none
    ∧ (Reconfigure sampleEnv sampleState
        { sampleConf with selectiveSyncerName := "sel" }).err = none
    ∧ (Reconfigure sampleEnv sampleState
        { sampleConf with selectiveSyncerName := "sel" }).state.selectiveSyncEnabled = true
    ∧ shouldSyncGate true none (fun _ => .ok [(ShouldSyncKey, .bool true)]) = false := by
  refine ⟨rfl, by decide, by decide, by decide⟩

/-- C5 amended: a selective-sync source name that fails to
re-resolve is only logged and `Reconfigure` still succeeds, but
selective sync stays *enabled* with no sensor installed, so the
should-sync gate evaluates to `false` on every scheduled tick (no
syncing at all until fixed).  Stated for calls whose four sync settings
are unchanged, so that no syncer rebuild can fail for unrelated
reasons. -/
theorem c5_amended (env : Env) (st0 : BuiltIn) (conf : Config) (c : Nat)
    (hc : env.depsCloud = some c) (ht : env.trusted = true)
    (hname : conf.selectiveSyncerName ≠ "")
    (hmiss : env.lookupSensor conf.selectiveSyncerName = none)
    (hsd : st0.syncDisabled = conf.scheduledSyncDisabled)
    (hsi : st0.syncIntervalMins = conf.syncIntervalMins)
    (htags : st0.tags = conf.tags)
    (hflm : st0.fileLastModifiedMillis =
      if conf.fileLastModifiedMillis ≤ 0 then defaultFileLastModifiedMillis
      else conf.fileLastModifiedMillis) :
    (Reconfigure env st0 conf).err = none
    ∧ (Reconfigure env st0 conf).state.selectiveSyncEnabled = true
    ∧ (Reconfigure env st0 conf).state.syncSensor = none
    ∧ ∀ readings, shouldSyncGate (Reconfigure env st0 conf).state.selectiveSyncEnabled
        (Reconfigure env st0 conf).state.syncSensor readings = false := by
  obtain ⟨e1, e2, e3, e4, e5, e6, e7, e8, e9⟩ :=
    reconfigureCollectorPhase_syncState env conf { st0 with cloudConnSvc := c }
  unfold Reconfigure
  simp only [hc]
  rw [if_neg (by simp [ht])]
  rw [reconfigureSyncPhase_unchanged env _ conf _ (by rw [e1]; exact hsd)
    (by rw [e2]; exact hsi) (by rw [e3]; exact htags) (by rw [e4]; exact hflm)]
  simp [hname, hmiss, shouldSyncGate]

/-- Witness for the amended C5 at concrete inputs. -/
theorem c5_amended_witness :
    (Reconfigure sampleEnv sampleState
        { sampleConf with selectiveSyncerName := "sel" }).err = none
    ∧ (Reconfigure sampleEnv sampleState
        { sampleConf with selectiveSyncerName := "sel" }).state.selectiveSyncEnabled = true
    ∧ (Reconfigure sampleEnv sampleState
        { sampleConf with selectiveSyncerName := "sel" }).state.syncSensor = none
    ∧ shouldSyncGate
        (Reconfigure sampleEnv sampleState
          { sampleConf with selectiveSyncerName := "sel" }).state.selectiveSyncEnabled
        (Reconfigure sampleEnv sampleState
          { sampleConf with selectiveSyncerName := "sel" }).state.syncSensor
        (fun _ => .ok [(ShouldSyncKey, .bool true)]) = false :=
  ⟨(c5_amended sampleEnv sampleState { sampleConf with selectiveSyncerName := "sel" } 2
      rfl rfl (by decide) rfl rfl rfl rfl (by decide)).1,
   (c5_amended sampleEnv sampleState { sampleConf with selectiveSyncerName := "sel" } 2
      rfl rfl (by decide) rfl rfl rfl rfl (by decide)).2.1,
   (c5_amended sampleEnv sampleState { sampleConf with selectiveSyncerName := "sel" } 2
      rfl rfl (by decide) rfl rfl rfl rfl (by decide)).2.2.1,
   (c5_amended sampleEnv sampleState { sampleConf with selectiveSyncerName := "sel" } 2
      rfl rfl (by decide) rfl rfl rfl rfl (by decide)).2.2.2
     (fun _ => .ok [(ShouldSyncKey, .bool true)])⟩

/-- C6 counterexample: across these two `Reconfigure` calls the
remote-connection dependency changes identity (state has `1`, the
dependency set now resolves `2`), yet because none of the four sync
settings changed, the call succeeds without tearing the syncer down:
the old syncer object survives and nothing is closed (builtin.go — the
rebuild at lines 530-535 sits inside the settings-changed branch opened
at line 517). -/
theorem c6_counterexample :
    sampleEnv.depsCloud = some 2
    ∧ sampleState.cloudConnSvc = 1
    ∧ (Reconfigure sampleEnv sampleState sampleConf).err = none
    ∧ (Reconfigure sampleEnv sampleState sampleConf).state.syncer = sampleState.syncer
    ∧ (Reconfigure sampleEnv sampleState sampleConf).closedSyncers = [] := by
  refine ⟨rfl, rfl, by decide, by decide, by decide⟩

/-- The teardown-and-rebuild branch of `reconfigureSyncPhase`: with the
sync settings changed, scheduled sync remaining enabled, a syncer
present, and `reinitSyncer` true, the old syncer is closed and a new one
is built over the freshly acquired connection. -/
theorem reconfigureSyncPhase_reinit (env : Env) (conf : Config) (st : BuiltIn)
    (m : SyncMgr) (conn : Nat)
    (hch : st.syncDisabled ≠ conf.scheduledSyncDisabled
      ∨ st.syncIntervalMins ≠ conf.syncIntervalMins
      ∨ st.tags ≠ conf.tags
      ∨ st.fileLastModifiedMillis ≠
        (if conf.fileLastModifiedMillis ≤ 0 then defaultFileLastModifiedMillis
         else conf.fileLastModifiedMillis))
    (hsd : conf.scheduledSyncDisabled = false) (hsi : conf.syncIntervalMins ≠ 0)
    (hsy : st.syncer = some m)
    (hacq : env.acquireConn st.cloudConnSvc = .ok conn)
    (hctor : env.syncerCtorOK = true) :
    (reconfigureSyncPhase env true conf st).2.2 = none
    ∧ (reconfigureSyncPhase env true conf st).2.1 = [m]
    ∧ ∃ k, (reconfigureSyncPhase env true conf st).1.syncer = some (.real k conn) := by
  simp only [reconfigureSyncPhase]
  rw [if_pos hch, if_pos ⟨hsd, hsi⟩]
  simp [closeSyncer, initSyncer, hsy, hacq, hctor]

/-- The keep branch of `reconfigureSyncPhase`: with the sync settings
changed, scheduled sync remaining enabled, a syncer present, and
`reinitSyncer` false, the existing syncer is kept and nothing is
closed. -/
theorem reconfigureSyncPhase_keep (env : Env) (conf : Config) (st : BuiltIn)
    (m : SyncMgr)
    (hch : st.syncDisabled ≠ conf.scheduledSyncDisabled
      ∨ st.syncIntervalMins ≠ conf.syncIntervalMins
      ∨ st.tags ≠ conf.tags
      ∨ st.fileLastModifiedMillis ≠
        (if conf.fileLastModifiedMillis ≤ 0 then defaultFileLastModifiedMillis
         else conf.fileLastModifiedMillis))
    (hsd : conf.scheduledSyncDisabled = false) (hsi : conf.syncIntervalMins ≠ 0)
    (hsy : st.syncer = some m) :
    (reconfigureSyncPhase env false conf st).2.2 = none
    ∧ (reconfigureSyncPhase env false conf st).2.1 = []
    ∧ (reconfigureSyncPhase env false conf st).1.syncer = some m := by
  simp only [reconfigureSyncPhase]
  rw [if_pos hch, if_pos ⟨hsd, hsi⟩]
  simp [hsy]

/-- The disable branch of `reconfigureSyncPhase`: with the sync settings
changed and scheduled sync ending up disabled or at zero interval, the
syncer (when present) is closed and not rebuilt, for every value of
`reinitSyncer`. -/
theorem reconfigureSyncPhase_disable (env : Env) (reinit : Bool) (conf : Config)
    (st : BuiltIn) (m : SyncMgr)
    (hch : st.syncDisabled ≠ conf.scheduledSyncDisabled
      ∨ st.syncIntervalMins ≠ conf.syncIntervalMins
      ∨ st.tags ≠ conf.tags
      ∨ st.fileLastModifiedMillis ≠
        (if conf.fileLastModifiedMillis ≤ 0 then defaultFileLastModifiedMillis
         else conf.fileLastModifiedMillis))
    (hdis : ¬(conf.scheduledSyncDisabled = false ∧ conf.syncIntervalMins ≠ (0 : Int)))
    (hsy : st.syncer = some m) :
    (reconfigureSyncPhase env reinit conf st).2.2 = none
    ∧ (reconfigureSyncPhase env reinit conf st).2.1 = [m]
    ∧ (reconfigureSyncPhase env reinit conf st).1.syncer = none := by
  simp only [reconfigureSyncPhase]
  rw [if_pos hch, if_neg hdis]
  simp [closeSyncer, hsy]

/-- C6 amended: the remote-sync client is created lazily on first need
(an explicit `Sync` call builds it when absent and keeps an existing
one) and is torn down on engine `Close`.  During `Reconfigure`,
teardown happens only inside the sync-settings-changed branch
(sync-disabled flag, interval, tags, or stale threshold changed):
there, when scheduled sync remains enabled, the client is torn down and
rebuilt if the remote-connection dependency changed identity, and kept
if it did not; when scheduled sync ends up disabled or at zero
interval, the client is torn down without rebuild regardless of the
dependency.  When none of the four sync settings changed, the old
client survives the call even if the dependency identity changed. -/
theorem c6_amended :
    (∀ (env : Env) (st : BuiltIn) (conn : Nat),
      st.syncer = none → env.acquireConn st.cloudConnSvc = .ok conn →
      env.syncerCtorOK = true →
      (SyncCall env st).2 = true
        ∧ (SyncCall env st).1.syncer = some (.real st.nextFresh conn))
    ∧ (∀ (env : Env) (st : BuiltIn) (m : SyncMgr), st.syncer = some m →
        SyncCall env st = (st, true))
    ∧ (∀ (st : BuiltIn) (m : SyncMgr), st.syncer = some m →
        (EngineClose st).1.syncer = none ∧ (EngineClose st).2.2 = [m])
    ∧ (∀ (env : Env) (st0 : BuiltIn) (conf : Config) (c conn : Nat) (m : SyncMgr),
        env.depsCloud = some c → env.trusted = true → c ≠ st0.cloudConnSvc →
        st0.syncer = some m →
        (st0.syncDisabled ≠ conf.scheduledSyncDisabled
          ∨ st0.syncIntervalMins ≠ conf.syncIntervalMins
          ∨ st0.tags ≠ conf.tags
          ∨ st0.fileLastModifiedMillis ≠
            (if conf.fileLastModifiedMillis ≤ 0 then defaultFileLastModifiedMillis
             else conf.fileLastModifiedMillis)) →
        conf.scheduledSyncDisabled = false → conf.syncIntervalMins ≠ 0 →
        env.acquireConn c = .ok conn → env.syncerCtorOK = true →
        (Reconfigure env st0 conf).err = none
        ∧ (Reconfigure env st0 conf).closedSyncers = [m]
        ∧ ∃ k, (Reconfigure env st0 conf).state.syncer = some (.real k conn))
    ∧ (∀ (env : Env) (st0 : BuiltIn) (conf : Config) (c : Nat) (m : SyncMgr),
        env.depsCloud = some c → env.trusted = true → c = st0.cloudConnSvc →
        st0.syncer = some m →
        (st0.syncDisabled ≠ conf.scheduledSyncDisabled
          ∨ st0.syncIntervalMins ≠ conf.syncIntervalMins
          ∨ st0.tags ≠ conf.tags
          ∨ st0.fileLastModifiedMillis ≠
            (if conf.fileLastModifiedMillis ≤ 0 then defaultFileLastModifiedMillis
             else conf.fileLastModifiedMillis)) →
        conf.scheduledSyncDisabled = false → conf.syncIntervalMins ≠ 0 →
        (Reconfigure env st0 conf).err = none
        ∧ (Reconfigure env st0 conf).closedSyncers = []
        ∧ (Reconfigure env st0 conf).state.syncer = some m)
    ∧ (∀ (env : Env) (st0 : BuiltIn) (conf : Config) (c : Nat) (m : SyncMgr),
        env.depsCloud = some c → env.trusted = true →
        st0.syncer = some m →
        (st0.syncDisabled ≠ conf.scheduledSyncDisabled
          ∨ st0.syncIntervalMins ≠ conf.syncIntervalMins
          ∨ st0.tags ≠ conf.tags
          ∨ st0.fileLastModifiedMillis ≠
            (if conf.fileLastModifiedMillis ≤ 0 then defaultFileLastModifiedMillis
             else conf.fileLastModifiedMillis)) →
        ¬(conf.scheduledSyncDisabled = false ∧ conf.syncIntervalMins ≠ (0 : Int)) →
        (Reconfigure env st0 conf).err = none
        ∧ (Reconfigure env st0 conf).closedSyncers = [m]
        ∧ (Reconfigure env st0 conf).state.syncer = none)
    ∧ (∀ (env : Env) (st0 : BuiltIn) (conf : Config) (c : Nat),
        env.depsCloud = some c → env.trusted = true →
        st0.syncDisabled = conf.scheduledSyncDisabled →
        st0.syncIntervalMins = conf.syncIntervalMins →
        st0.tags = conf.tags →
        st0.fileLastModifiedMillis =
          (if conf.fileLastModifiedMillis ≤ 0 then defaultFileLastModifiedMillis
           else conf.fileLastModifiedMillis) →
        (Reconfigure env st0 conf).err = none
        ∧ (Reconfigure env st0 conf).closedSyncers = []
        ∧ (Reconfigure env st0 conf).state.syncer = st0.syncer) := by
  refine ⟨?_, ?_, ?_, ?_, ?_, ?_, ?_⟩
  · intro env st conn h0 hacq hctor
    simp [SyncCall, h0, initSyncer, hacq, hctor]
  · intro env st m h
    simp [SyncCall, h]
  · intro st m h
    simp [EngineClose, closeCollectors, closeSyncer, h]
  · intro env st0 conf c conn m hc ht hne hsy hch hsd hsi hacq hctor
    obtain ⟨e1, e2, e3, e4, e5, e6, e7, e8, e9⟩ :=
      reconfigureCollectorPhase_syncState env conf { st0 with cloudConnSvc := c }
    unfold Reconfigure
    simp only [hc]
    rw [if_neg (by simp [ht])]
    have hrein : decide (c ≠ st0.cloudConnSvc) = true := by simp [hne]
    rw [hrein]
    have h4 := reconfigureSyncPhase_reinit env conf
      (reconfigureCollectorPhase env conf { st0 with cloudConnSvc := c }).1 m conn
      (by rw [e1, e2, e3, e4]; exact hch) hsd hsi (by rw [e5]; exact hsy)
      (by rw [e9]; exact hacq) hctor
    exact ⟨h4.1, h4.2.1, h4.2.2⟩
  · intro env st0 conf c m hc ht heq hsy hch hsd hsi
    obtain ⟨e1, e2, e3, e4, e5, e6, e7, e8, e9⟩ :=
      reconfigureCollectorPhase_syncState env conf { st0 with cloudConnSvc := c }
    unfold Reconfigure
    simp only [hc]
    rw [if_neg (by simp [ht])]
    have hrein : decide (c ≠ st0.cloudConnSvc) = false := by simp [heq]
    rw [hrein]
    have h5 := reconfigureSyncPhase_keep env conf
      (reconfigureCollectorPhase env conf { st0 with cloudConnSvc := c }).1 m
      (by rw [e1, e2, e3, e4]; exact hch) hsd hsi (by rw [e5]; exact hsy)
    exact ⟨h5.1, h5.2.1, h5.2.2⟩
  · intro env st0 conf c m hc ht hsy hch hdis
    obtain ⟨e1, e2, e3, e4, e5, e6, e7, e8, e9⟩ :=
      reconfigureCollectorPhase_syncState env conf { st0 with cloudConnSvc := c }
    unfold Reconfigure
    simp only [hc]
    rw [if_neg (by simp [ht])]
    have h6 := reconfigureSyncPhase_disable env (decide (c ≠ st0.cloudConnSvc)) conf
      (reconfigureCollectorPhase env conf { st0 with cloudConnSvc := c }).1 m
      (by rw [e1, e2, e3, e4]; exact hch) hdis (by rw [e5]; exact hsy)
    exact ⟨h6.1, h6.2.1, h6.2.2⟩
  · intro env st0 conf c hc ht hsd hsi htags hflm
    obtain ⟨e1, e2, e3, e4, e5, e6, e7, e8, e9⟩ :=
      reconfigureCollectorPhase_syncState env conf { st0 with cloudConnSvc := c }
    unfold Reconfigure
    simp only [hc]
    rw [if_neg (by simp [ht])]
    rw [reconfigureSyncPhase_unchanged env _ conf _ (by rw [e1]; exact hsd)
      (by rw [e2]; exact hsi) (by rw [e3]; exact htags) (by rw [e4]; exact hflm)]
    exact ⟨rfl, rfl, e5⟩

/-- Witness for the amended C6 at concrete inputs: lazy creation by
`Sync`; no-op `Sync` with a syncer present; teardown on `Close`;
teardown-and-rebuild on a tags-changing `Reconfigure` with a dependency
identity change; keep on a tags-changing call without one; teardown
without rebuild on a call that disables scheduled sync; survival on a
call with unchanged settings despite a dependency identity change. -/
theorem c6_amended_witness :
    ((SyncCall sampleEnv { sampleState with syncer := none }).2 = true
      ∧ (SyncCall sampleEnv { sampleState with syncer := none }).1.syncer
        = some (.real 8 9))
    ∧ SyncCall sampleEnv sampleState = (sampleState, true)
    ∧ ((EngineClose sampleState).1.syncer = none
      ∧ (EngineClose sampleState).2.2 = [.real 7 3])
    ∧ ((Reconfigure sampleEnv sampleState { sampleConf with tags := ["t"] }).err = none
      ∧ (Reconfigure sampleEnv sampleState
          { sampleConf with tags := ["t"] }).closedSyncers = [.real 7 3]
      ∧ ∃ k, (Reconfigure sampleEnv sampleState
          { sampleConf with tags := ["t"] }).state.syncer = some (.real k 9))
    ∧ ((Reconfigure { sampleEnv with depsCloud := some 1 } sampleState
          { sampleConf with tags := ["t"] }).err = none
      ∧ (Reconfigure { sampleEnv with depsCloud := some 1 } sampleState
          { sampleConf with tags := ["t"] }).closedSyncers = []
      ∧ (Reconfigure { sampleEnv with depsCloud := some 1 } sampleState
          { sampleConf with tags := ["t"] }).state.syncer = some (.real 7 3))
    ∧ ((Reconfigure sampleEnv sampleState
          { sampleConf with scheduledSyncDisabled := true }).err = none
      ∧ (Reconfigure sampleEnv sampleState
          { sampleConf with scheduledSyncDisabled := true }).closedSyncers = [.real 7 3]
      ∧ (Reconfigure sampleEnv sampleState
          { sampleConf with scheduledSyncDisabled := true }).state.syncer = none)
    ∧ ((Reconfigure sampleEnv sampleState sampleConf).err = none
      ∧ (Reconfigure sampleEnv sampleState sampleConf).closedSyncers = []
      ∧ (Reconfigure sampleEnv sampleState sampleConf).state.syncer
        = sampleState.syncer) :=
  ⟨c6_amended.1 sampleEnv { sampleState with syncer := none } 9 rfl rfl rfl,
   c6_amended.2.1 sampleEnv sampleState (.real 7 3) rfl,
   c6_amended.2.2.1 sampleState (.real 7 3) rfl,
   c6_amended.2.2.2.1 sampleEnv sampleState { sampleConf with tags := ["t"] } 2 9
     (.real 7 3) rfl rfl (by decide) rfl (Or.inr (Or.inr (Or.inl (by decide)))) rfl
     (by decide) rfl rfl,
   c6_amended.2.2.2.2.1 { sampleEnv with depsCloud := some 1 } sampleState
     { sampleConf with tags := ["t"] } 1 (.real 7 3) rfl rfl rfl rfl
     (Or.inr (Or.inr (Or.inl (by decide)))) rfl (by decide),
   c6_amended.2.2.2.2.2.1 sampleEnv sampleState
     { sampleConf with scheduledSyncDisabled := true } 2 (.real 7 3) rfl rfl rfl
     (Or.inl (by decide)) (by decide),
   c6_amended.2.2.2.2.2.2 sampleEnv sampleState sampleConf 2 rfl rfl rfl rfl rfl
     (by decide)⟩

/-- One reconciliation step on a declaration that is unchanged relative
to the stored collector: the stored collector is kept, nothing is
closed, and no fresh identity is consumed. -/
theorem reconcileStep_unchanged (env : Env)
    (old : List (ResourceMethodMetadata × CollectorAndConfig)) (svcTags : List String)
    (ls : LoopState) (d : DataCaptureConfig) (cc : CollectorAndConfig)
    (h1 : d.resource.isSome = true) (h2 : d.disabled = false)
    (h3 : 0 < d.captureFrequencyHz)
    (h4 : env.buildMetadataOK { d with tags := svcTags } = true)
    (h5 : alookup old (mdOf d) = some cc)
    (h6 : cc.config = { d with tags := svcTags }) :
    reconcileStep env old svcTags ls d =
      { ls with freqMap := ainsert ls.freqMap (mdOf d) d.captureFrequencyHz,
                newCollectors := ainsert ls.newCollectors (mdOf d) cc } := by
  obtain ⟨r, hr⟩ := Option.isSome_iff_exists.1 h1
  rw [hr] at h4 h6
  simp only [reconcileStep, hr]
  rw [if_pos ⟨h2, h3⟩]
  simp [initializeOrUpdateCollector, h4, h5, h6, hr]

/-- Folding the reconciliation loop over declarations that are all
unchanged: nothing gets closed, no fresh identity is consumed, and the
accumulated collector map looks up each declared identity to the stored
collector. -/
theorem reconcile_foldl_unchanged (env : Env)
    (old : List (ResourceMethodMetadata × CollectorAndConfig)) (svcTags : List String) :
    ∀ (decls : List DataCaptureConfig) (ls : LoopState),
      (∀ d ∈ decls, d.resource.isSome = true ∧ d.disabled = false
        ∧ 0 < d.captureFrequencyHz
        ∧ env.buildMetadataOK { d with tags := svcTags } = true
        ∧ ∃ cc, alookup old (mdOf d) = some cc ∧ cc.config = { d with tags := svcTags }) →
      (decls.map mdOf).Nodup →
      (decls.foldl (reconcileStep env old svcTags) ls).closed = ls.closed
      ∧ (decls.foldl (reconcileStep env old svcTags) ls).nextFresh = ls.nextFresh
      ∧ ∀ m, alookup (decls.foldl (reconcileStep env old svcTags) ls).newCollectors m =
          if m ∈ decls.map mdOf then alookup old m else alookup ls.newCollectors m := by
  intro decls
  induction decls with
  | nil =>
    intro ls h hnd
    simp
  | cons d ds ih =>
    intro ls h hnd
    obtain ⟨h1, h2, h3, h4, cc, h5, h6⟩ := h d (List.mem_cons_self d ds)
    have hstep := reconcileStep_unchanged env old svcTags ls d cc h1 h2 h3 h4 h5 h6
    rw [List.map_cons] at hnd
    obtain ⟨hnotin, hndtail⟩ := List.nodup_cons.1 hnd
    rw [List.foldl_cons, hstep]
    have ihr := ih { ls with freqMap := ainsert ls.freqMap (mdOf d) d.captureFrequencyHz,
                             newCollectors := ainsert ls.newCollectors (mdOf d) cc }
      (fun x hx => h x (List.mem_cons_of_mem _ hx)) hndtail
    refine ⟨ihr.1, ihr.2.1, fun m => ?_⟩
    rw [ihr.2.2 m]
    by_cases hm : m ∈ ds.map mdOf
    · simp [hm]
    · by_cases hmd : m = mdOf d
      · subst hmd
        simp [hm, alookup_ainsert_self, h5]
      · simp [hm, hmd, alookup_ainsert_ne _ _ _ _ hmd]

/-- The collector phase on an unchanged declaration set: nothing is
closed and the collector map is unchanged (extensionally). -/
theorem collectorPhase_unchanged (env : Env) (conf : Config) (st : BuiltIn)
    (hcap : conf.captureDisabled = false)
    (hdecls : ∀ d ∈ updateDataCaptureConfigs env conf.resourceConfigs conf.captureDir,
      d.resource.isSome = true ∧ d.disabled = false ∧ 0 < d.captureFrequencyHz
      ∧ env.buildMetadataOK { d with tags := conf.tags } = true
      ∧ ∃ cc, alookup st.collectors (mdOf d) = some cc
          ∧ cc.config = { d with tags := conf.tags })
    (hnd : ((updateDataCaptureConfigs env conf.resourceConfigs conf.captureDir).map mdOf).Nodup)
    (hcover : ∀ kv ∈ st.collectors,
      kv.1 ∈ (updateDataCaptureConfigs env conf.resourceConfigs conf.captureDir).map mdOf) :
    (reconfigureCollectorPhase env conf st).2 = []
    ∧ ∀ m, alookup (reconfigureCollectorPhase env conf st).1.collectors m =
        alookup st.collectors m := by
  have hfold := reconcile_foldl_unchanged env st.collectors conf.tags
    (updateDataCaptureConfigs env conf.resourceConfigs conf.captureDir)
    ⟨[], st.componentMethodFrequencyHz, [], st.nextFresh⟩ hdecls hnd
  have hnone : ∀ m, m ∉ (updateDataCaptureConfigs env conf.resourceConfigs
      conf.captureDir).map mdOf → alookup st.collectors m = none := by
    intro m hm
    by_contra hne
    obtain ⟨v, hv⟩ := Option.ne_none_iff_exists.1 hne
    exact hm (hcover (m, v) (alookup_eq_some_mem hv.symm))
  have hrm : st.collectors.filter
      (fun kv => (alookup ((updateDataCaptureConfigs env conf.resourceConfigs
        conf.captureDir).foldl (reconcileStep env st.collectors conf.tags)
        ⟨[], st.componentMethodFrequencyHz, [], st.nextFresh⟩).newCollectors kv.1).isNone)
      = [] := by
    rw [List.filter_eq_nil_iff]
    intro kv hkv
    rw [hfold.2.2 kv.1, if_pos (hcover kv hkv)]
    obtain ⟨v, hv⟩ := Option.isSome_iff_exists.1 (alookup_isSome_of_mem st.collectors kv hkv)
    simp [hv]
  constructor
  · simp only [reconfigureCollectorPhase, hcap]
    simp only [Bool.false_eq_true, if_false]
    rw [hrm]
    simp [hfold.1]
  · intro m
    simp only [reconfigureCollectorPhase, hcap]
    simp only [Bool.false_eq_true, if_false]
    rw [hfold.2.2 m]
    by_cases hm : m ∈ (updateDataCaptureConfigs env conf.resourceConfigs
        conf.captureDir).map mdOf
    · rw [if_pos hm]
    · rw [if_neg hm, hnone m hm]
      simp [alookup]

/-- C3: a `Reconfigure` whose declaration set is unchanged relative
to the existing tasks — every (resource-resolved, enabled,
positive-frequency) declaration deep-equals the declaration stored with
the task of its `SourceIdentity`, the identities are distinct, and they
cover every existing task — closes no task and leaves the task map
looking up every `SourceIdentity` to the identical task as before. -/
theorem c3_unchanged_declarations (env : Env) (st0 : BuiltIn) (conf : Config) (c : Nat)
    (hc : env.depsCloud = some c) (ht : env.trusted = true)
    (hcap : conf.captureDisabled = false)
    (hdecls : ∀ d ∈ updateDataCaptureConfigs env conf.resourceConfigs conf.captureDir,
      d.resource.isSome = true ∧ d.disabled = false ∧ 0 < d.captureFrequencyHz
      ∧ env.buildMetadataOK { d with tags := conf.tags } = true
      ∧ ∃ cc, alookup st0.collectors (mdOf d) = some cc
          ∧ cc.config = { d with tags := conf.tags })
    (hnd : ((updateDataCaptureConfigs env conf.resourceConfigs conf.captureDir).map mdOf).Nodup)
    (hcover : ∀ kv ∈ st0.collectors,
      kv.1 ∈ (updateDataCaptureConfigs env conf.resourceConfigs conf.captureDir).map mdOf) :
    (Reconfigure env st0 conf).closedCollectors = []
    ∧ ∀ m, alookup (Reconfigure env st0 conf).state.collectors m =
        alookup st0.collectors m := by
  have hcp := collectorPhase_unchanged env conf { st0 with cloudConnSvc := c }
    hcap hdecls hnd hcover
  unfold Reconfigure
  simp only [hc]
  rw [if_neg (by simp [ht])]
  dsimp only
  refine ⟨hcp.1, fun m => ?_⟩
  rw [reconfigureSyncPhase_collectors]
  exact hcp.2 m

/-- Witness for C3: the reconfiguration with the unchanged declaration
closes nothing and keeps the identical stored task. -/
theorem c3_unchanged_declarations_witness :
    (Reconfigure sampleResEnv sampleCollectorState sampleDeclConf).closedCollectors = []
    ∧ alookup (Reconfigure sampleResEnv sampleCollectorState
        sampleDeclConf).state.collectors (mdOf sampleDecl)
      = alookup sampleCollectorState.collectors (mdOf sampleDecl) := by
  have h := c3_unchanged_declarations sampleResEnv sampleCollectorState sampleDeclConf 2
    rfl rfl rfl
    (by
      intro d hd
      have hd' : d = sampleDeclResolved := by
        simpa [updateDataCaptureConfigs, sampleResEnv, sampleDeclConf, sampleConf,
          sampleDeclResolved, sampleDecl, sampleEnv] using hd
      subst hd'
      exact ⟨rfl, rfl, by decide, rfl, sampleStored, by decide, by decide⟩)
    (by decide) (by decide)
  exact ⟨h.1, h.2 (mdOf sampleDecl)⟩

end Rdk
